import Mathlib

/-!
Shallow embedding of the DrinkWise recommendation surface:
the msw mock API handlers (`src/frontend/src/mocks/handlers.js`),
the preference-comparison score computation
(`src/frontend/src/components/PreferenceComparison.jsx`) and the
preference-edit popup (`src/components/PreferencePopup.jsx`).
JavaScript numbers are modelled as rationals (every value the code
manipulates is exactly representable), ids and timestamps as integers.
-/

namespace DrinkWise

/-- A drink record as stored in `sampleDrinks` (handlers.js, lines 20-90).
Fields not consulted by any handler or score computation (image, dates,
ingredients, tags, safety flags) are omitted. -/
structure Drink where
  drink_id : ℤ
  name : String
  category : String
  price_tier : String
  sweetness_level : ℚ
  caffeine_content : ℚ
  sugar_content : ℚ
  calorie_content : ℚ
  is_alcoholic : Bool
  alcohol_content : ℚ
deriving DecidableEq

/-- Drink 101, "Caramel Cold Brew" (handlers.js, lines 21-43). -/
def drink101 : Drink :=
  { drink_id := 101
  , name := "Caramel Cold Brew"
  , category := "coffee"
  , price_tier := "$$"
  , sweetness_level := 6
  , caffeine_content := 180
  , sugar_content := 18
  , calorie_content := 160
  , is_alcoholic := false
  , alcohol_content := 0 }

/-- Drink 102, "Matcha Oat Latte" (handlers.js, lines 44-66). -/
def drink102 : Drink :=
  { drink_id := 102
  , name := "Matcha Oat Latte"
  , category := "tea"
  , price_tier := "$$"
  , sweetness_level := 4
  , caffeine_content := 75
  , sugar_content := 8
  , calorie_content := 120
  , is_alcoholic := false
  , alcohol_content := 0 }

/-- Drink 103, "Berry Ginger Fizz" (handlers.js, lines 67-89). -/
def drink103 : Drink :=
  { drink_id := 103
  , name := "Berry Ginger Fizz"
  , category := "mocktail"
  , price_tier := "$"
  , sweetness_level := 5
  , caffeine_content := 0
  , sugar_content := 12
  , calorie_content := 90
  , is_alcoholic := false
  , alcohol_content := 0 }

/-- The in-memory catalog `sampleDrinks` (handlers.js, line 20). -/
def sampleDrinks : List Drink := [drink101, drink102, drink103]

/-- The `GET /catalog/drinks/:id` handler (handlers.js, lines 152-158):
`sampleDrinks.find(d => d.drink_id === Number(params.id))`; `none`
corresponds to the 404 "Drink not found" branch. -/
def catalogDrink (id : ℤ) : Option Drink :=
  sampleDrinks.find? (fun d => d.drink_id = id)

/-- The filtered list built by the `GET /recommendations/similar/:id`
handler (handlers.js, line 171):
`sampleDrinks.filter(d => d.drink_id !== Number(params.id))`. -/
def similarDrinks (id : ℤ) : List Drink :=
  sampleDrinks.filter (fun d => d.drink_id ≠ id)

/-- The JSON body of the `GET /recommendations/similar/:id` response
(handlers.js, lines 172-176). -/
structure SimilarDrinksResponse where
  drink_id : ℤ
  similar_drinks : List Drink
  count : ℕ
deriving DecidableEq

/-- An HTTP reply: status code plus body. -/
structure HttpReply (α : Type) where
  status : ℕ
  body : α
deriving DecidableEq

/-- The `GET /recommendations/similar/:id` handler (handlers.js, lines
170-177).  It has a single unconditional branch: `HttpResponse.json`
with the default 200 status — there is no existence check on `id`. -/
def recommendationsSimilar (id : ℤ) : HttpReply SimilarDrinksResponse :=
  { status := 200
  , body :=
    { drink_id := id
    , similar_drinks := similarDrinks id
    , count := (similarDrinks id).length } }

/-- A user preference record, with the fields the `GET /preferences`
mock handler returns (handlers.js, lines 216-228).  The mock has no
sugar limit field. -/
structure UserPreference where
  user_id : ℤ
  sweetness_preference : ℚ
  bitterness_preference : ℚ
  caffeine_limit : ℚ
  calorie_limit : ℚ
  preferred_price_tier : String
  preferred_categories : List String
deriving DecidableEq

/-- The preference record the `GET /preferences` handler serves
(handlers.js, lines 217-227). -/
def samplePreferences : UserPreference :=
  { user_id := 1
  , sweetness_preference := 6
  , bitterness_preference := 4
  , caffeine_limit := 200
  , calorie_limit := 400
  , preferred_price_tier := "$$"
  , preferred_categories := ["coffee", "tea"] }

/-- `sweetnessMatch` (PreferenceComparison.jsx, line 74):
`Math.max(0, 100 - Math.abs(drink.sweetness_level - preferences.sweetness_preference) * 10)`. -/
def sweetnessMatch (drink : Drink) (preferences : UserPreference) : ℚ :=
  max 0 (100 - |drink.sweetness_level - preferences.sweetness_preference| * 10)

/-- `caffeineMatch` (PreferenceComparison.jsx, line 75):
`drink.caffeine_content <= preferences.caffeine_limit ? 100 : 0`. -/
def caffeineMatch (drink : Drink) (preferences : UserPreference) : ℚ :=
  if drink.caffeine_content ≤ preferences.caffeine_limit then 100 else 0

/-- `priceMatch` (PreferenceComparison.jsx, line 76):
`drink.price_tier === preferences.preferred_price_tier ? 100 : 50`. -/
def priceMatch (drink : Drink) (preferences : UserPreference) : ℚ :=
  if drink.price_tier = preferences.preferred_price_tier then 100 else 50

/-- `overallMatch` (PreferenceComparison.jsx, line 77):
`Math.round((sweetnessMatch + caffeineMatch + priceMatch) / 3)`.
Mathlib's `round` is `⌊x + 1/2⌋`, which agrees with JavaScript
`Math.round` on every input. -/
def overallMatch (drink : Drink) (preferences : UserPreference) : ℤ :=
  round ((sweetnessMatch drink preferences + caffeineMatch drink preferences
          + priceMatch drink preferences) / 3)

/-- The limit-dimension formula the specification states for
preference-to-drink matching: `1.0` when the drink value is at or below
the limit, otherwise `max(0, 1 - (drinkValue-limit)/limit)` (spec.md,
section 4.2).  Declared for refinement comparison against the code's
`caffeineMatch`; it is NOT derived from the source. -/
def specLimitMatch (value limit : ℚ) : ℚ :=
  if value ≤ limit then 1 else max 0 (1 - (value - limit) / limit)

/-- A user-drink interaction record (handlers.js, lines 92-103).
Timestamps are abstract integer instants. -/
structure UserDrinkInteraction where
  user_id : ℤ
  drink_id : ℤ
  times_consumed : ℤ
  is_favorite : Bool
  rating : ℚ
  is_not_for_me : Bool
  viewed_at : ℤ
  last_consumed : Option ℤ
deriving DecidableEq

/-- The mutable `userInteractions` table, as a map from drink id to the
stored record (the mock keys the table by drink id only). -/
def InteractionState : Type := ℤ → Option UserDrinkInteraction

/-- The initial `userInteractions` state (handlers.js, lines 92-103),
parameterised by the module-load instant `t0`. -/
def initialInteractions (t0 : ℤ) : InteractionState := fun id =>
  if id = 101 then
    some
      { user_id := 1
      , drink_id := 101
      , times_consumed := 2
      , is_favorite := true
      , rating := 9 / 2
      , is_not_for_me := false
      , viewed_at := t0
      , last_consumed := some t0 }
  else none

/-- A JSON patch body for `PUT /user-drinks/:id`: each field is present
(`some`) or absent (`none`); `{...existing, ...patch}` overrides exactly
the present fields. -/
structure InteractionPatch where
  user_id : Option ℤ := none
  drink_id : Option ℤ := none
  times_consumed : Option ℤ := none
  is_favorite : Option Bool := none
  rating : Option ℚ := none
  is_not_for_me : Option Bool := none
  viewed_at : Option ℤ := none
  last_consumed : Option (Option ℤ) := none
deriving DecidableEq

/-- The fallback record the `PUT /user-drinks/:id` handler builds when no
interaction exists yet (handlers.js, lines 200-209). -/
def defaultInteraction (id now : ℤ) : UserDrinkInteraction :=
  { user_id := 1
  , drink_id := id
  , times_consumed := 0
  , is_favorite := false
  , rating := 0
  , is_not_for_me := false
  , viewed_at := now
  , last_consumed := none }

/-- The object-spread merge `{ ...existing, ...patch }`: every field named
in the patch overrides, every other field keeps the existing value. -/
def applyPatch (existing : UserDrinkInteraction) (patch : InteractionPatch) :
    UserDrinkInteraction :=
  { user_id := patch.user_id.getD existing.user_id
  , drink_id := patch.drink_id.getD existing.drink_id
  , times_consumed := patch.times_consumed.getD existing.times_consumed
  , is_favorite := patch.is_favorite.getD existing.is_favorite
  , rating := patch.rating.getD existing.rating
  , is_not_for_me := patch.is_not_for_me.getD existing.is_not_for_me
  , viewed_at := patch.viewed_at.getD existing.viewed_at
  , last_consumed := patch.last_consumed.getD existing.last_consumed }

/-- The `PUT /user-drinks/:id` handler (handlers.js, lines 197-213):
`updated = { ...existing, ...patch, last_consumed: new Date().toISOString() }`,
stored back into the table and returned.  Because `last_consumed` is
written after both spreads, it is always the update instant `now`. -/
def putUserDrink (st : InteractionState) (id : ℤ) (patch : InteractionPatch)
    (now : ℤ) : InteractionState × UserDrinkInteraction :=
  let existing := (st id).getD (defaultInteraction id now)
  let updated := { applyPatch existing patch with last_consumed := some now }
  (fun k => if k = id then some updated else st k, updated)

/-- One entry of the `GET /recommendations/users` response
(handlers.js, lines 180-184). -/
structure Recommendation where
  drink : Drink
  score : ℚ
  recommendation_type : String
deriving DecidableEq

/-- The `GET /recommendations/users` handler (handlers.js, lines 178-186):
`sampleDrinks.map((d, idx) => ({drink: d, score: 0.9 - idx * 0.1,
recommendation_type: "hybrid"}))`.  It reads neither the request nor the
`userInteractions` table; the state parameter records that the handler
has access to it and ignores it. -/
def recommendationsUsers (_st : InteractionState) : List Recommendation :=
  sampleDrinks.enum.map (fun p =>
    { drink := p.2
    , score := 9 / 10 - (p.1 : ℚ) * (1 / 10)
    , recommendation_type := "hybrid" })

/-- The limit computation of the `GET /recommendations/drinks` handler
(handlers.js, line 163): `Number(url.searchParams.get("limit") || 6)` —
an absent (or empty) query parameter falls back to `6`. -/
def recommendationsDrinksLimit (limitParam : Option ℤ) : ℤ :=
  limitParam.getD 6

/-- JavaScript `Array.prototype.slice(0, e)`: a negative end index counts
from the end of the array, a nonnegative one truncates. -/
def jsSlice {α : Type} (l : List α) (e : ℤ) : List α :=
  if e < 0 then l.take ((l.length : ℤ) + e).toNat else l.take e.toNat

/-- The `GET /recommendations/drinks` handler (handlers.js, lines 161-169):
`sampleDrinks.slice(0, limit)`. -/
def recommendationsDrinks (limitParam : Option ℤ) : List Drink :=
  jsSlice sampleDrinks (recommendationsDrinksLimit limitParam)

/-- The `(value, label)` pairs of the price-tier `<select>` in
PreferencePopup.jsx (lines 188-190).  The option labelled
"Premium ($$$)" carries the value `"$$"` in the source. -/
def priceTierOptions : List (String × String) :=
  [("$", "Budget ($)"), ("$$", "Mid-range ($$)"), ("$$", "Premium ($$$)")]

/-- The fetch normalisation of PreferencePopup.jsx line 30:
`data.preferred_price_tier || "$$"` — a missing or empty server value
falls back to `"$$"`. -/
def fetchedTier (server : Option String) : String :=
  match server with
  | none => "$$"
  | some s => if s = "" then "$$" else s

/-- The price-tier values the PreferencePopup form state can hold:
the `useState` initial value `"$$"` (line 11), the value loaded from the
mock `GET /preferences` handler (line 30), or — via `handleInputChange`
on the controlled `<select>` — the value of one of its options.  The
submit handler (line 68) sends the current state value unchanged. -/
inductive TierReachable : String → Prop where
  | init : TierReachable "$$"
  | fetched : TierReachable (fetchedTier (some samplePreferences.preferred_price_tier))
  | selected (v : String) (hv : v ∈ priceTierOptions.map Prod.fst)
      (prev : String) (hprev : TierReachable prev) : TierReachable v

/-- Modelled from the spec: the backend Content Similarity Engine's
`similarity(vectorA, vectorB)` is absent from the sources here (only the
API documentation of the `/catalog/{drink_id}/similar` endpoints and the
mock handlers remain), so the feature vector is taken from spec.md
sections 3 and 4.2: six numeric dimensions (sweetness, caffeine, sugar,
calories, price tier, alcohol content) plus category/tag one-hot
membership. -/
structure FeatureVector where
  numeric : Fin 6 → ℝ
  labels : Finset String

/-- Modelled from the spec (section 4.2): weighted cosine similarity over
the numeric dimensions. -/
noncomputable def weightedCosine (w a b : Fin 6 → ℝ) : ℝ :=
  (∑ i, w i * a i * b i) /
    (Real.sqrt (∑ i, w i * a i * a i) * Real.sqrt (∑ i, w i * b i * b i))

/-- Modelled from the spec (section 4.2): Jaccard term over the
category/tag one-hot dimensions. -/
noncomputable def jaccard (a b : Finset String) : ℝ :=
  ((a ∩ b).card : ℝ) / ((a ∪ b).card : ℝ)

/-- Modelled from the spec (section 4.2): drink-to-drink similarity
`0.7 * weightedCosine + 0.3 * jaccard`. -/
noncomputable def similarity (w : Fin 6 → ℝ) (a b : FeatureVector) : ℝ :=
  0.7 * weightedCosine w a.numeric b.numeric + 0.3 * jaccard a.labels b.labels

/-! ## Theorems -/

/-- C1 counterexample: the claim says the caffeine-limit dimension scores
`max(0, 1 - (value-limit)/limit)` when the drink exceeds the limit, so a
drink at 201mg against a 200mg limit should keep almost full credit
(199/200); the code's `caffeineMatch` instead drops to exactly 0. -/
theorem C1_counterexample :
    caffeineMatch { drink101 with caffeine_content := 201 } samplePreferences = 0 ∧
      specLimitMatch 201 200 = 199 / 200 ∧ (199 / 200 : ℚ) ≠ 0 := by
  refine ⟨?_, ?_, by norm_num⟩
  · norm_num [caffeineMatch, samplePreferences]
  · rw [specLimitMatch, if_neg (by norm_num), max_eq_right (by norm_num)]
    norm_num

/-- C1 (amended): the caffeine-limit match in the code is binary — full
score (100) when the drink's caffeine content is at or below the user's
limit, and exactly 0 as soon as it exceeds the limit, with no partial
credit; the comparison component computes no sugar or calorie dimension
at all. -/
theorem C1_caffeine_match_binary (drink : Drink) (preferences : UserPreference) :
    (drink.caffeine_content ≤ preferences.caffeine_limit →
      caffeineMatch drink preferences = 100) ∧
    (preferences.caffeine_limit < drink.caffeine_content →
      caffeineMatch drink preferences = 0) := by
  constructor
  · intro h
    simp [caffeineMatch, h]
  · intro h
    simp [caffeineMatch, not_le.mpr h]

/-- C1 witness: drink 101 (180mg) is under the sample 200mg limit and
scores the full 100. -/
theorem C1_witness :
    drink101.caffeine_content ≤ samplePreferences.caffeine_limit ∧
      caffeineMatch drink101 samplePreferences = 100 :=
  ⟨by decide, (C1_caffeine_match_binary drink101 samplePreferences).1 (by decide)⟩

/-- C2 counterexample: after the user marks drink 101 `is_not_for_me`
through `PUT /user-drinks/101`, the stored record has the flag set, yet
the `GET /recommendations/users` output still contains drink 101. -/
theorem C2_counterexample :
    (((putUserDrink (initialInteractions 0) 101 { is_not_for_me := some true } 1).1 101).map
        UserDrinkInteraction.is_not_for_me = some true) ∧
      drink101 ∈ (recommendationsUsers
          (putUserDrink (initialInteractions 0) 101 { is_not_for_me := some true } 1).1).map
        Recommendation.drink := by
  decide

/-- C2 (amended): the user-recommendation handler never consults the
interaction state — for every reachable (indeed every) interaction
state its output lists the entire sample catalog, so a drink marked
`is_not_for_me` still appears. -/
theorem C2_recommendations_ignore_interactions (st : InteractionState) :
    (recommendationsUsers st).map Recommendation.drink = sampleDrinks := rfl

/-- C3: the `/recommendations/similar/:id` list for source id `id` never
contains a drink with that id — in particular it never contains the
source drink itself. -/
theorem C3_similar_never_contains_source (id : ℤ) (d : Drink)
    (hd : d ∈ similarDrinks id) : d.drink_id ≠ id := by
  have h := List.of_mem_filter hd
  simpa using h

/-- C3 witness: drink 102 is in the similar-to-101 list and its id
differs from 101. -/
theorem C3_witness : drink102 ∈ similarDrinks 101 ∧ drink102.drink_id ≠ 101 :=
  ⟨by decide, C3_similar_never_contains_source 101 drink102 (by decide)⟩

/-- The `GET /recommendations/users` output in closed form: the three
sample drinks with scores 0.9, 0.8, 0.7, for every interaction state. -/
theorem recommendationsUsers_eq (st : InteractionState) :
    recommendationsUsers st =
      [⟨drink101, 9 / 10, "hybrid"⟩, ⟨drink102, 4 / 5, "hybrid"⟩,
        ⟨drink103, 7 / 10, "hybrid"⟩] := by
  show [(⟨drink101, 9 / 10 - ((0 : ℕ) : ℚ) * (1 / 10), "hybrid"⟩ : Recommendation),
      ⟨drink102, 9 / 10 - ((1 : ℕ) : ℚ) * (1 / 10), "hybrid"⟩,
      ⟨drink103, 9 / 10 - ((2 : ℕ) : ℚ) * (1 / 10), "hybrid"⟩] = _
  norm_num [Recommendation.mk.injEq]

/-- C4 counterexample: the per-dimension match scores are percentages —
drink 101 against the sample preferences scores a sweetness match of
100, which does not lie in [0, 1]. -/
theorem C4_counterexample :
    sweetnessMatch drink101 samplePreferences = 100 ∧
      ¬ sweetnessMatch drink101 samplePreferences ≤ 1 := by
  have h : sweetnessMatch drink101 samplePreferences = 100 := by
    rw [sweetnessMatch]
    norm_num [drink101, samplePreferences]
  refine ⟨h, by rw [h]; norm_num⟩

/-- C4 (amended): every per-dimension match score and the overall match
score lies in [0, 100] (they are percentages), and every recommendation
score returned by `GET /recommendations/users` lies in [0, 1]. -/
theorem C4_scores_bounded :
    (∀ (drink : Drink) (preferences : UserPreference),
      (0 ≤ sweetnessMatch drink preferences ∧ sweetnessMatch drink preferences ≤ 100) ∧
      (0 ≤ caffeineMatch drink preferences ∧ caffeineMatch drink preferences ≤ 100) ∧
      (0 ≤ priceMatch drink preferences ∧ priceMatch drink preferences ≤ 100) ∧
      (0 ≤ overallMatch drink preferences ∧ overallMatch drink preferences ≤ 100)) ∧
    ∀ (st : InteractionState) (r : Recommendation),
      r ∈ recommendationsUsers st → 0 ≤ r.score ∧ r.score ≤ 1 := by
  constructor
  · intro drink preferences
    have habs : (0 : ℚ) ≤ |drink.sweetness_level - preferences.sweetness_preference| * 10 := by
      positivity
    have hs : 0 ≤ sweetnessMatch drink preferences ∧ sweetnessMatch drink preferences ≤ 100 := by
      refine ⟨le_max_left 0 _, ?_⟩
      rw [sweetnessMatch]
      exact max_le (by norm_num) (by linarith)
    have hc : 0 ≤ caffeineMatch drink preferences ∧ caffeineMatch drink preferences ≤ 100 := by
      rw [caffeineMatch]
      split <;> norm_num
    have hp : 0 ≤ priceMatch drink preferences ∧ priceMatch drink preferences ≤ 100 := by
      rw [priceMatch]
      split <;> norm_num
    refine ⟨hs, hc, hp, ?_⟩
    rw [overallMatch, round_eq]
    constructor
    · rw [Int.floor_nonneg]
      linarith [hs.1, hc.1, hp.1]
    · rw [Int.floor_le_iff]
      push_cast
      linarith [hs.2, hc.2, hp.2]
  · intro st r hr
    rw [recommendationsUsers_eq] at hr
    simp only [List.mem_cons, List.not_mem_nil, or_false] at hr
    rcases hr with rfl | rfl | rfl <;> constructor <;> norm_num

/-- C4 witness: the first recommendation entry is in the output and its
score lies in [0, 1]. -/
theorem C4_witness :
    (⟨drink101, 9 / 10, "hybrid"⟩ : Recommendation) ∈
        recommendationsUsers (initialInteractions 0) ∧
      (0 ≤ (Recommendation.mk drink101 (9 / 10) "hybrid").score ∧
        (Recommendation.mk drink101 (9 / 10) "hybrid").score ≤ 1) :=
  have hmem : (⟨drink101, 9 / 10, "hybrid"⟩ : Recommendation) ∈
      recommendationsUsers (initialInteractions 0) := by
    rw [recommendationsUsers_eq]
    exact List.mem_cons_self _ _
  ⟨hmem, C4_scores_bounded.2 (initialInteractions 0) ⟨drink101, 9 / 10, "hybrid"⟩ hmem⟩

/-- C5: for every interaction state, the `GET /recommendations/users`
output is sorted by score in strictly compatible order: each earlier
entry either has a strictly larger score or an equal score and a smaller
drink id; since the handler is a pure function the ordering is fully
determined by its input. -/
theorem C5_sorted_desc_ties_by_id (st : InteractionState) :
    List.Pairwise (fun a b : Recommendation =>
        b.score < a.score ∨ (a.score = b.score ∧ a.drink.drink_id < b.drink.drink_id))
      (recommendationsUsers st) := by
  rw [recommendationsUsers_eq]
  norm_num [List.pairwise_cons]

/-- C6 (spec-modelled): the drink-to-drink similarity
`0.7 * weightedCosine + 0.3 * jaccard` is exactly symmetric for every
dimension weighting. -/
theorem C6_similarity_symmetric (w : Fin 6 → ℝ) (a b : FeatureVector) :
    similarity w a b = similarity w b a := by
  unfold similarity weightedCosine jaccard
  rw [Finset.inter_comm, Finset.union_comm,
    mul_comm (Real.sqrt (∑ i, w i * a.numeric i * a.numeric i))]
  have hnum : (∑ i, w i * a.numeric i * b.numeric i)
      = ∑ i, w i * b.numeric i * a.numeric i :=
    Finset.sum_congr rfl (fun i _ => by ring)
  rw [hnum]

/-- C7 counterexample: id 999 is not in the catalog (the catalog lookup
that powers `GET /catalog/drinks/:id` 404s on it), yet
`GET /recommendations/similar/999` answers 200 with the full catalog as
its similar-drinks list instead of failing. -/
theorem C7_counterexample :
    catalogDrink 999 = none ∧ (recommendationsSimilar 999).status = 200 ∧
      (recommendationsSimilar 999).body.similar_drinks = sampleDrinks := by
  decide

/-- C7 (amended): a drink-to-drink request whose source id is unknown to
the catalog is not rejected: the handler performs no existence check and
returns a normal 200 response whose list is the entire catalog. -/
theorem C7_unknown_id_not_rejected (id : ℤ) (h : catalogDrink id = none) :
    (recommendationsSimilar id).status = 200 ∧
      (recommendationsSimilar id).body.similar_drinks = sampleDrinks := by
  refine ⟨rfl, ?_⟩
  have h' := List.find?_eq_none.mp h
  show similarDrinks id = sampleDrinks
  rw [similarDrinks, List.filter_eq_self]
  intro d hd
  simpa using h' d hd

/-- C7 witness: instantiation of the amended claim at the unknown id
999. -/
theorem C7_witness :
    catalogDrink 999 = none ∧
      ((recommendationsSimilar 999).status = 200 ∧
        (recommendationsSimilar 999).body.similar_drinks = sampleDrinks) :=
  ⟨by decide, C7_unknown_id_not_rejected 999 (by decide)⟩

/-- C8 counterexample: when the caller supplies no limit, the
`GET /recommendations/drinks` handler defaults the limit to 6, not
10. -/
theorem C8_counterexample :
    recommendationsDrinksLimit none = 6 ∧ (6 : ℤ) ≠ 10 := by
  decide

/-- C8 (amended): the `GET /recommendations/drinks` output contains at
most the caller-supplied (nonnegative) limit of entries, and when the
caller supplies no limit the default limit is 6. -/
theorem C8_truncation_default_six :
    (∀ n : ℤ, 0 ≤ n → ((recommendationsDrinks (some n)).length : ℤ) ≤ n) ∧
      recommendationsDrinksLimit none = 6 ∧
      (recommendationsDrinks none).length ≤ 6 := by
  refine ⟨?_, rfl, by decide⟩
  intro n hn
  rw [recommendationsDrinks, recommendationsDrinksLimit, Option.getD_some, jsSlice,
    if_neg (not_lt.mpr hn)]
  calc ((sampleDrinks.take n.toNat).length : ℤ)
      ≤ (n.toNat : ℤ) := by
        exact_mod_cast (List.length_take n.toNat sampleDrinks).le.trans
          (min_le_left _ _)
    _ = n := Int.toNat_of_nonneg hn

/-- C8 witness: with a caller-supplied limit of 2 the output has at most
2 entries. -/
theorem C8_witness :
    (0 : ℤ) ≤ 2 ∧ ((recommendationsDrinks (some 2)).length : ℤ) ≤ 2 :=
  ⟨by decide, C8_truncation_default_six.1 2 (by decide)⟩

/-- C9: updating a user-drink interaction with a partial patch preserves
every field the patch does not name (falling back, when no record
existed, to the defaults: times_consumed 0, is_favorite false, rating 0,
is_not_for_me false), while `last_consumed` is always overwritten with
the update instant, whether or not the patch records a consumption. -/
theorem C9_partial_update_frame (st : InteractionState) (id : ℤ)
    (patch : InteractionPatch) (now : ℤ) :
    (patch.times_consumed = none →
      ((putUserDrink st id patch now).2).times_consumed =
        ((st id).getD (defaultInteraction id now)).times_consumed) ∧
    (patch.is_favorite = none →
      ((putUserDrink st id patch now).2).is_favorite =
        ((st id).getD (defaultInteraction id now)).is_favorite) ∧
    (patch.rating = none →
      ((putUserDrink st id patch now).2).rating =
        ((st id).getD (defaultInteraction id now)).rating) ∧
    (patch.is_not_for_me = none →
      ((putUserDrink st id patch now).2).is_not_for_me =
        ((st id).getD (defaultInteraction id now)).is_not_for_me) ∧
    (patch.viewed_at = none →
      ((putUserDrink st id patch now).2).viewed_at =
        ((st id).getD (defaultInteraction id now)).viewed_at) ∧
    ((putUserDrink st id patch now).2).last_consumed = some now ∧
    (defaultInteraction id now).times_consumed = 0 ∧
    (defaultInteraction id now).is_favorite = false ∧
    (defaultInteraction id now).rating = 0 ∧
    (defaultInteraction id now).is_not_for_me = false := by
  refine ⟨?_, ?_, ?_, ?_, ?_, rfl, rfl, rfl, rfl, rfl⟩ <;>
    (intro h; simp [putUserDrink, applyPatch, h])

/-- C9 witness: instantiation at the initial state, drink 101, the empty
patch and update instant 5. -/
theorem C9_witness :
    (({} : InteractionPatch).times_consumed = none →
      ((putUserDrink (initialInteractions 0) 101 {} 5).2).times_consumed =
        (((initialInteractions 0) 101).getD (defaultInteraction 101 5)).times_consumed) ∧
    (({} : InteractionPatch).is_favorite = none →
      ((putUserDrink (initialInteractions 0) 101 {} 5).2).is_favorite =
        (((initialInteractions 0) 101).getD (defaultInteraction 101 5)).is_favorite) ∧
    (({} : InteractionPatch).rating = none →
      ((putUserDrink (initialInteractions 0) 101 {} 5).2).rating =
        (((initialInteractions 0) 101).getD (defaultInteraction 101 5)).rating) ∧
    (({} : InteractionPatch).is_not_for_me = none →
      ((putUserDrink (initialInteractions 0) 101 {} 5).2).is_not_for_me =
        (((initialInteractions 0) 101).getD (defaultInteraction 101 5)).is_not_for_me) ∧
    (({} : InteractionPatch).viewed_at = none →
      ((putUserDrink (initialInteractions 0) 101 {} 5).2).viewed_at =
        (((initialInteractions 0) 101).getD (defaultInteraction 101 5)).viewed_at) ∧
    ((putUserDrink (initialInteractions 0) 101 {} 5).2).last_consumed = some 5 ∧
    (defaultInteraction 101 5).times_consumed = 0 ∧
    (defaultInteraction 101 5).is_favorite = false ∧
    (defaultInteraction 101 5).rating = 0 ∧
    (defaultInteraction 101 5).is_not_for_me = false :=
  C9_partial_update_frame (initialInteractions 0) 101 {} 5

/-- C10: every price tier the preference-edit popup can submit is `"$"`
or `"$$"` and never `"$$$"`, and the select option labelled
"Premium ($$$)" carries the value `"$$"`, so the premium tier is
unreachable from this form. -/
theorem C10_premium_tier_unreachable (t : String) (h : TierReachable t) :
    ((t = "$" ∨ t = "$$") ∧ t ≠ "$$$") ∧
      ∀ opt ∈ priceTierOptions, opt.2 = "Premium ($$$)" → opt.1 = "$$" := by
  refine ⟨?_, by decide⟩
  induction h with
  | init => exact ⟨Or.inr rfl, by decide⟩
  | fetched => exact ⟨Or.inr (by decide), by decide⟩
  | selected v hv prev hprev ih =>
      have hv' : v = "$" ∨ v = "$$" := by
        simpa [priceTierOptions] using hv
      refine ⟨hv', ?_⟩
      rcases hv' with rfl | rfl <;> decide

/-- C10 witness: the value `"$"` is reachable (by selecting the Budget
option) and satisfies the conclusion. -/
theorem C10_witness :
    TierReachable "$" ∧
      ((("$" = "$" ∨ "$" = "$$") ∧ "$" ≠ "$$$") ∧
        ∀ opt ∈ priceTierOptions, opt.2 = "Premium ($$$)" → opt.1 = "$$") :=
  have hreach : TierReachable "$" :=
    TierReachable.selected "$" (by decide) "$$" TierReachable.init
  ⟨hreach, C10_premium_tier_unreachable "$" hreach⟩

end DrinkWise
